import Mathlib

/-!
Shallow embedding of the polaris task backend (backend/polaris).

The domain logic lives in three places of the source:
  - polaris/models/task.py   : the TaskState enum and the Task ORM model
    (column defaults, nullability);
  - polaris/schemas/task.py  : the pydantic schemas TaskBase, TaskCreate,
    TaskUpdate with their field validators;
  - polaris/api/tasks.py     : the five request handlers (quick_capture,
    list_tasks, create_task, get_task, update_task).

Modelling conventions: UUIDs are opaque naturals handed out by the store;
server timestamps are naturals from a strictly increasing store clock
(func.now at insert, onupdate at update); nullable columns and optional
JSON values are Option; a JSON body is a record whose outer Option marks
field presence (distinguishing an absent field from an explicit null, as
pydantic model_dump(exclude_unset=True) does); pydantic validation errors,
HTTP 404 and handler exceptions surfaced as HTTP 500 are the three
constructors of ApiError.  The relational store itself is kept abstract as
a list of rows: it persists exactly what the handlers write, per the spec
it is an external collaborator; the legacy SQLAlchemy Query builder used
by the list handler is embedded with its clause state and the
_no_limit_offset guard of order_by.
-/

namespace Polaris

/-- Task lifecycle states, from the TaskState enum in polaris/models/task.py. -/
inductive TaskState where
  | inbox
  | triaged
  | active
  | blocked
  | done
  | archived
deriving DecidableEq, Repr

/-- Transport tag of each member, the Python `.value` strings. -/
def TaskState.value : TaskState → String
  | .inbox => "inbox"
  | .triaged => "triaged"
  | .active => "active"
  | .blocked => "blocked"
  | .done => "done"
  | .archived => "archived"

/-- Iteration order of the enum members, as Python `for s in TaskState` visits them. -/
def TaskState.members : List TaskState :=
  [.inbox, .triaged, .active, .blocked, .done, .archived]

/-- The list comprehension `[s.value for s in TaskState]` used by the state validator. -/
def TaskState.values : List String :=
  TaskState.members.map TaskState.value

/-- A persisted task row (Task model in polaris/models/task.py plus the id and
timestamp columns inherited from BaseModel in polaris/models/base.py).
Every data column is nullable in the schema except none of them carries a
NOT NULL check in this abstract store, so each is an Option; the state
column holds the transport tag actually assigned by the handlers. -/
structure Task where
  id : Nat
  title : Option String
  description : Option String
  state : Option String
  cognitive_load : Option Int
  estimated_minutes : Option Int
  created_at : Nat
  updated_at : Nat
deriving DecidableEq, Repr

/-- The relational store: rows in insertion order, the primary-key generator,
and the server clock read by func.now. -/
structure Store where
  tasks : List Task
  nextId : Nat
  now : Nat
deriving DecidableEq, Repr

/-- Failure modes surfaced to the caller: pydantic/FastAPI validation errors
(HTTP 422), the not-found condition (HTTP 404), and an exception raised
inside a handler body (for example SQLAlchemy's InvalidRequestError)
surfaced as an internal server error (HTTP 500). -/
inductive ApiError where
  | validation : String → ApiError
  | notFound : ApiError
  | internal : String → ApiError
deriving DecidableEq, Repr

/-- Field validator validate_cognitive_load shared by TaskBase and TaskUpdate in
polaris/schemas/task.py: `if v is not None and (v < 1 or v > 10): raise`. -/
def validate_cognitive_load : Option Int → Except String (Option Int)
  | none => .ok none
  | some v =>
    if v < 1 ∨ v > 10 then .error "Cognitive load must be between 1 and 10"
    else .ok (some v)

/-- Field validator TaskUpdate.validate_state in polaris/schemas/task.py:
`if v and v not in [s.value for s in TaskState]: raise`.  Python truthiness:
None and the empty string are falsy, so both skip the membership check. -/
def validate_state : Option String → Except String (Option String)
  | none => .ok none
  | some v =>
    if v ≠ "" ∧ v ∉ TaskState.values then .error ("Invalid state: " ++ v)
    else .ok (some v)

/-- A structured-create JSON body.  The outer Option is field presence, the
inner one is JSON null.  TaskCreate inherits exactly these four fields from
TaskBase; in particular there is no state field. -/
structure CreatePayload where
  title : Option (Option String) := none
  description : Option (Option String) := none
  cognitive_load : Option (Option Int) := none
  estimated_minutes : Option (Option Int) := none
deriving DecidableEq, Repr

/-- The parsed TaskCreate schema (TaskCreate = TaskBase, polaris/schemas/task.py). -/
structure TaskCreate where
  title : String
  description : Option String
  cognitive_load : Option Int
  estimated_minutes : Option Int
deriving DecidableEq, Repr

/-- Pydantic parsing of a create body against TaskCreate.  The annotation
`title: str` makes the field required and non-null but accepts any string,
the empty string included; description defaults to None; cognitive_load
defaults to 5 when absent and is range-checked by the validator when
present; estimated_minutes defaults to None.  Fields are checked in
declaration order and a failure rejects the whole request. -/
def TaskCreate.parse (p : CreatePayload) : Except ApiError TaskCreate :=
  match p.title with
  | none => .error (.validation "Field required")
  | some none => .error (.validation "Input should be a valid string")
  | some (some t) =>
    match p.cognitive_load with
    | none =>
      .ok { title := t
            description := p.description.getD none
            cognitive_load := some 5
            estimated_minutes := p.estimated_minutes.getD none }
    | some v =>
      match validate_cognitive_load v with
      | .error e => .error (.validation e)
      | .ok w =>
        .ok { title := t
              description := p.description.getD none
              cognitive_load := w
              estimated_minutes := p.estimated_minutes.getD none }

/-- An update JSON body: all five fields optional, presence distinguished
from explicit null exactly as in CreatePayload. -/
structure UpdatePayload where
  title : Option (Option String) := none
  description : Option (Option String) := none
  state : Option (Option String) := none
  cognitive_load : Option (Option Int) := none
  estimated_minutes : Option (Option Int) := none
deriving DecidableEq, Repr

/-- The parsed TaskUpdate schema (polaris/schemas/task.py): every field
Optional with default None, so unset fields stay distinguishable via
model_dump(exclude_unset=True); the outer Option here records that
presence. -/
structure TaskUpdate where
  title : Option (Option String) := none
  description : Option (Option String) := none
  state : Option (Option String) := none
  cognitive_load : Option (Option Int) := none
  estimated_minutes : Option (Option Int) := none
deriving DecidableEq, Repr

/-- Presence-aware check of the state field of an update body: an absent
field is left unset and its validator does not run; a present (possibly
null) value runs validate_state. -/
def parseStateField : Option (Option String) → Except ApiError (Option (Option String))
  | none => .ok none
  | some v =>
    match validate_state v with
    | .error e => .error (.validation e)
    | .ok w => .ok (some w)

/-- Presence-aware check of the cognitive_load field of an update body:
absent fields are left unset, a present (possibly null) value runs
validate_cognitive_load. -/
def parseLoadField : Option (Option Int) → Except ApiError (Option (Option Int))
  | none => .ok none
  | some v =>
    match validate_cognitive_load v with
    | .error e => .error (.validation e)
    | .ok w => .ok (some w)

/-- Pydantic parsing of an update body against TaskUpdate, field validators
run in declaration order (state before cognitive_load); title, description
and estimated_minutes have no validator and are taken as given. -/
def TaskUpdate.parse (p : UpdatePayload) : Except ApiError TaskUpdate :=
  match parseStateField p.state with
  | .error e => .error e
  | .ok st =>
    match parseLoadField p.cognitive_load with
    | .error e => .error e
    | .ok cl =>
      .ok { title := p.title
            description := p.description
            state := st
            cognitive_load := cl
            estimated_minutes := p.estimated_minutes }

/-- True when model_dump(exclude_unset=True) is nonempty, i.e. the handler
performs at least one setattr and the commit emits an UPDATE. -/
def TaskUpdate.isSet (u : TaskUpdate) : Bool :=
  u.title.isSome || u.description.isSome || u.state.isSome ||
    u.cognitive_load.isSome || u.estimated_minutes.isSome

/-- Primary-key lookup `db.query(Task).filter(Task.id == task_id).first()`. -/
def Store.findTask (s : Store) (tid : Nat) : Option Task :=
  s.tasks.find? (fun t => t.id == tid)

/-- Handler quick_capture (POST /quick-capture, polaris/api/tasks.py):
`Task(title=text, state=TaskState.INBOX)` then add/commit/refresh.  The
constructor sets title and state explicitly; the unset columns take their
defaults: cognitive_load 5, description and estimated_minutes NULL, id and
the two timestamps assigned by the store.  No validation runs. -/
def quick_capture (s : Store) (text : String) : Store × Task :=
  let t : Task :=
    { id := s.nextId
      title := some text
      description := none
      state := some TaskState.inbox.value
      cognitive_load := some 5
      estimated_minutes := none
      created_at := s.now
      updated_at := s.now }
  ({ tasks := s.tasks ++ [t], nextId := s.nextId + 1, now := s.now + 1 }, t)

/-- Handler create_task (POST "", polaris/api/tasks.py): the body is
pydantic-validated into TaskCreate, then `Task(**task.model_dump())` is
persisted.  model_dump carries exactly the four TaskCreate fields, so the
state column takes its default TaskState.INBOX. -/
def create_task (s : Store) (p : CreatePayload) : Except ApiError (Store × Task) :=
  match TaskCreate.parse p with
  | .error e => .error e
  | .ok c =>
    let t : Task :=
      { id := s.nextId
        title := some c.title
        description := c.description
        state := some TaskState.inbox.value
        cognitive_load := c.cognitive_load
        estimated_minutes := c.estimated_minutes
        created_at := s.now
        updated_at := s.now }
    .ok ({ tasks := s.tasks ++ [t], nextId := s.nextId + 1, now := s.now + 1 }, t)

/-- Handler get_task (GET /task_id, polaris/api/tasks.py): first() on the
primary-key filter, 404 when the row is missing. -/
def get_task (s : Store) (tid : Nat) : Except ApiError Task :=
  match s.findTask tid with
  | none => Except.error ApiError.notFound
  | some t => Except.ok t

/-- The setattr loop of update_task: for each field present in
model_dump(exclude_unset=True) assign the supplied value (possibly null),
leaving every unset field at its stored value. -/
def applyUpdate (t : Task) (u : TaskUpdate) : Task :=
  { t with
    title := u.title.getD t.title
    description := u.description.getD t.description
    state := u.state.getD t.state
    cognitive_load := u.cognitive_load.getD t.cognitive_load
    estimated_minutes := u.estimated_minutes.getD t.estimated_minutes }

/-- Handler update_task (PUT /task_id, polaris/api/tasks.py): the body is
pydantic-validated before the handler runs; then the row is looked up (404
when missing, before any mutation); then the setattr loop applies exactly
the present fields and the commit refreshes updated_at via the onupdate
server default when an UPDATE is emitted. -/
def update_task (s : Store) (tid : Nat) (p : UpdatePayload) :
    Except ApiError (Store × Task) :=
  match TaskUpdate.parse p with
  | .error e => .error e
  | .ok u =>
    match s.findTask tid with
    | none => .error .notFound
    | some t =>
      let t1 := applyUpdate t u
      let t2 := if u.isSet then { t1 with updated_at := s.now } else t1
      .ok
        ({ tasks := s.tasks.map (fun x => if x.id == tid then t2 else x)
           nextId := s.nextId
           now := s.now + 1 }, t2)

/-- A legacy SQLAlchemy Query over the tasks table, as built by
db.query(Task): the rows it ranges over plus the accumulated OFFSET,
LIMIT and ORDER BY created_at DESC clauses (none of them set at first). -/
structure TaskQuery where
  rows : List Task
  offsetClause : Option Int := none
  limitClause : Option Int := none
  orderByCreatedDesc : Bool := false
deriving DecidableEq, Repr

/-- Query.offset(n): records the OFFSET clause. -/
def TaskQuery.offset (q : TaskQuery) (n : Int) : TaskQuery :=
  { q with offsetClause := some n }

/-- Query.limit(n): records the LIMIT clause. -/
def TaskQuery.limit (q : TaskQuery) (n : Int) : TaskQuery :=
  { q with limitClause := some n }

/-- Query.order_by(Task.created_at.desc()) on the LEGACY Query: the method
is guarded by the _no_limit_offset assertion and raises
InvalidRequestError as soon as a LIMIT or OFFSET clause is already
present; only on a clause-free query does it record the ORDER BY. -/
def TaskQuery.order_by_created_desc (q : TaskQuery) : Except String TaskQuery :=
  if q.offsetClause.isSome || q.limitClause.isSome then
    .error "Query.order_by() being called on a Query which already has LIMIT or OFFSET applied."
  else .ok { q with orderByCreatedDesc := true }

/-- Query.all(): emits the SELECT with standard SQL clause semantics: sort
when the ORDER BY clause is set, then drop the OFFSET, then take the LIMIT. -/
def TaskQuery.all (q : TaskQuery) : List Task :=
  let sorted :=
    if q.orderByCreatedDesc then
      q.rows.mergeSort (fun a b => b.created_at ≤ a.created_at)
    else q.rows
  let shifted :=
    match q.offsetClause with
    | none => sorted
    | some n => sorted.drop n.toNat
  match q.limitClause with
  | none => shifted
  | some n => shifted.take n.toNat

/-- Handler list_tasks (GET "", polaris/api/tasks.py): FastAPI
Query(le=500) rejects limit above 500 with a 422 before the handler runs;
the handler then chains offset(skip).limit(limit).order_by(...) on the
legacy Query, so order_by finds the LIMIT and OFFSET clauses already set
and raises InvalidRequestError, which surfaces to the caller as an
internal server error: the .all() page is never reached. -/
def list_tasks (s : Store) (skip : Int) (limit : Int) : Except ApiError (List Task) :=
  if limit > 500 then
    Except.error (ApiError.validation "Input should be less than or equal to 500")
  else
    match ((({ rows := s.tasks } : TaskQuery).offset skip).limit limit).order_by_created_desc with
    | .error m => .error (.internal m)
    | .ok q => .ok q.all

/-! Concrete fixtures: a fresh store and the stores reached by capturing
the tasks T1, T2, T3 in that order. -/

/-- A fresh store: no rows, primary keys and the clock starting at 0. -/
def Store.fresh : Store := { tasks := [], nextId := 0, now := 0 }

/-- The task produced by the first quick capture (title "T1"). -/
def task1 : Task := (quick_capture Store.fresh "T1").2

/-- Store after capturing T1. -/
def store1 : Store := (quick_capture Store.fresh "T1").1

/-- The task produced by the second quick capture (title "T2"). -/
def task2 : Task := (quick_capture store1 "T2").2

/-- Store after capturing T1 then T2. -/
def store2 : Store := (quick_capture store1 "T2").1

/-- The task produced by the third quick capture (title "T3"). -/
def task3 : Task := (quick_capture store2 "T3").2

/-- Store after capturing T1, T2 and T3. -/
def store3 : Store := (quick_capture store2 "T3").1

/-- Recognizer of the 422 class of failures (any validation error). -/
def isValidationFailure {α : Type} : Except ApiError α → Bool
  | .error (.validation _) => true
  | _ => false

/-- The full-creation body of the end-to-end scenario of the spec. -/
def createBody : CreatePayload := { title := some (some "Review Q4 budget") }

/-- The row persisted for createBody in a fresh store. -/
def createdTask : Task :=
  { id := 0, title := some "Review Q4 budget", description := none,
    state := some "inbox", cognitive_load := some 5,
    estimated_minutes := none, created_at := 0, updated_at := 0 }

/-- The store holding exactly createdTask. -/
def createdStore : Store := { tasks := [createdTask], nextId := 1, now := 1 }

/-- The row persisted for a create body whose title is the empty string. -/
def emptyTitleTask : Task :=
  { id := 0, title := some "", description := none, state := some "inbox",
    cognitive_load := some 5, estimated_minutes := none,
    created_at := 0, updated_at := 0 }

/-- A create body whose cognitive_load 0 is out of range while its title is valid. -/
def badCreateBody : CreatePayload :=
  { title := some (some "x"), cognitive_load := some (some 0) }

/-- An update body whose cognitive_load 0 is out of range. -/
def badUpdateBody : UpdatePayload := { cognitive_load := some (some 0) }

/-- A create body with title "A" and description "B" (spec testable property 4). -/
def abBody : CreatePayload :=
  { title := some (some "A"), description := some (some "B") }

/-- The row persisted for abBody in a fresh store. -/
def taskAB : Task :=
  { id := 0, title := some "A", description := some "B", state := some "inbox",
    cognitive_load := some 5, estimated_minutes := none,
    created_at := 0, updated_at := 0 }

/-- The store holding exactly taskAB. -/
def storeAB : Store := { tasks := [taskAB], nextId := 1, now := 1 }

/-- An update body renaming the title to "C" and touching nothing else. -/
def titleCBody : UpdatePayload := { title := some (some "C") }

/-- The row taskAB after applying titleCBody. -/
def taskC : Task := { taskAB with title := some "C", updated_at := 1 }

/-- The store storeAB after applying titleCBody to its row. -/
def storeC : Store := { tasks := [taskC], nextId := 1, now := 2 }

/-- The row task1 after updating its state to "done". -/
def task1done : Task := { task1 with state := some "done", updated_at := 1 }

/-- The store store1 after updating its row's state to "done". -/
def store1done : Store := { tasks := [task1done], nextId := 1, now := 2 }

/-- The row task1 after updating its state to the empty string. -/
def task1empty : Task := { task1 with state := some "", updated_at := 1 }

/-- The store store1 after updating its row's state to the empty string. -/
def store1empty : Store := { tasks := [task1empty], nextId := 1, now := 2 }

/-! Helper lemmas about the validators, the parsers and the update handler,
shared by the claim theorems below. -/

/-- validate_state accepts every enum member unchanged. -/
theorem validate_state_member (v : String) (hv : v ∈ TaskState.values) :
    validate_state (some v) = .ok (some v) := by
  simp only [validate_state]
  rw [if_neg (fun hc => hc.2 hv)]

/-- validate_state rejects every non-empty non-member. -/
theorem validate_state_nonmember (v : String) (h1 : v ≠ "")
    (h2 : v ∉ TaskState.values) :
    validate_state (some v) = .error ("Invalid state: " ++ v) := by
  simp only [validate_state]
  rw [if_pos ⟨h1, h2⟩]

/-- validate_state returns its input unchanged whenever it succeeds. -/
theorem validate_state_ok (v w : Option String)
    (h : validate_state v = .ok w) : w = v := by
  cases v with
  | none => simp only [validate_state] at h; cases h; rfl
  | some x =>
    simp only [validate_state] at h
    by_cases hc : x ≠ "" ∧ x ∉ TaskState.values
    · rw [if_pos hc] at h; cases h
    · rw [if_neg hc] at h; cases h; rfl

/-- validate_cognitive_load returns its input unchanged whenever it succeeds. -/
theorem validate_load_ok (v w : Option Int)
    (h : validate_cognitive_load v = .ok w) : w = v := by
  cases v with
  | none => simp only [validate_cognitive_load] at h; cases h; rfl
  | some x =>
    simp only [validate_cognitive_load] at h
    by_cases hc : x < 1 ∨ x > 10
    · rw [if_pos hc] at h; cases h
    · rw [if_neg hc] at h; cases h; rfl

/-- A successful presence-aware state check preserves the field. -/
theorem parseStateField_ok (x st : Option (Option String))
    (h : parseStateField x = .ok st) : st = x := by
  cases x with
  | none => simp only [parseStateField] at h; cases h; rfl
  | some v =>
    simp only [parseStateField] at h
    cases hv : validate_state v with
    | error e => rw [hv] at h; cases h
    | ok w =>
      rw [hv] at h
      cases h
      rw [validate_state_ok v w hv]

/-- A failed presence-aware state check always reports a validation error. -/
theorem parseStateField_error (x : Option (Option String)) (e : ApiError)
    (h : parseStateField x = .error e) : ∃ m, e = .validation m := by
  cases x with
  | none => simp only [parseStateField] at h; cases h
  | some v =>
    simp only [parseStateField] at h
    cases hv : validate_state v with
    | error m => rw [hv] at h; cases h; exact ⟨m, rfl⟩
    | ok w => rw [hv] at h; cases h

/-- A successful presence-aware cognitive_load check preserves the field. -/
theorem parseLoadField_ok (x cl : Option (Option Int))
    (h : parseLoadField x = .ok cl) : cl = x := by
  cases x with
  | none => simp only [parseLoadField] at h; cases h; rfl
  | some v =>
    simp only [parseLoadField] at h
    cases hv : validate_cognitive_load v with
    | error e => rw [hv] at h; cases h
    | ok w =>
      rw [hv] at h
      cases h
      rw [validate_load_ok v w hv]

/-- A successfully parsed update body keeps every field, presence included:
pydantic field validators return the value they accept. -/
theorem parse_ok_fields (p : UpdatePayload) (u : TaskUpdate)
    (h : TaskUpdate.parse p = .ok u) :
    u.title = p.title ∧ u.description = p.description ∧ u.state = p.state ∧
    u.cognitive_load = p.cognitive_load ∧
    u.estimated_minutes = p.estimated_minutes := by
  unfold TaskUpdate.parse at h
  cases hs : parseStateField p.state with
  | error e => rw [hs] at h; cases h
  | ok st =>
    rw [hs] at h
    cases hc : parseLoadField p.cognitive_load with
    | error e => rw [hc] at h; cases h
    | ok cl =>
      rw [hc] at h
      cases h
      exact ⟨rfl, rfl, parseStateField_ok _ _ hs, parseLoadField_ok _ _ hc, rfl⟩

/-- Shape of a successful update: the parsed fields are applied over the
found row, updated_at is refreshed (at least one field is set), and the
store replaces that row in place. -/
theorem update_task_ok (s : Store) (tid : Nat) (p : UpdatePayload)
    (u : TaskUpdate) (t : Task) (hp : TaskUpdate.parse p = .ok u)
    (hfind : s.findTask tid = some t) (hset : u.isSet = true) :
    update_task s tid p =
      .ok
        ({ tasks := s.tasks.map
             (fun x => if x.id == tid then { applyUpdate t u with updated_at := s.now } else x)
           nextId := s.nextId
           now := s.now + 1 },
         { applyUpdate t u with updated_at := s.now }) := by
  unfold update_task
  rw [hp, hfind]
  simp [hset]

/-- C5: for every text value, quick capture persists a task carrying that
text as its title, state inbox and cognitive_load 5, with no further
caller-supplied field and no validation (the operation is total). -/
theorem quick_capture_defaults (s : Store) (text : String) :
    (quick_capture s text).2.title = some text ∧
    (quick_capture s text).2.state = some "inbox" ∧
    (quick_capture s text).2.cognitive_load = some 5 ∧
    (quick_capture s text).1.tasks = s.tasks ++ [(quick_capture s text).2] :=
  ⟨rfl, rfl, rfl, rfl⟩

/-- C7: every task persisted by the structured-create handler has state
inbox; the TaskCreate schema exposes no state field, so no payload can
choose another value at this entry point. -/
theorem create_task_state_inbox (s s' : Store) (p : CreatePayload) (t : Task)
    (h : create_task s p = .ok (s', t)) : t.state = some "inbox" := by
  unfold create_task at h
  cases hp : TaskCreate.parse p with
  | error e => simp [hp] at h
  | ok c =>
    simp only [hp, Except.ok.injEq, Prod.mk.injEq] at h
    rw [← h.2]
    rfl

/-- Witness for C7 at a concrete input. -/
theorem create_task_state_inbox_witness : createdTask.state = some "inbox" :=
  create_task_state_inbox Store.fresh createdStore createBody createdTask rfl

/-- C8: a list request with limit above 500 is rejected at the boundary
by FastAPI with a validation error before the handler runs, so a list
call never returns more than 500 records.  The middle conjunct makes the
reason explicit rather than hiding it: a boundary-accepted call never
returns a page AT ALL, since the handler raises InvalidRequestError on
every invocation (the C1 code bug), so the record-count bound holds
vacuously on the success path. -/
theorem list_tasks_limit_cap (s : Store) (skip limit : Int) :
    (limit > 500 →
      list_tasks s skip limit =
        .error (.validation "Input should be less than or equal to 500")) ∧
    (∀ l, list_tasks s skip limit ≠ .ok l) ∧
    (∀ l, list_tasks s skip limit = .ok l → l.length ≤ 500) := by
  have hnever : ∀ l, list_tasks s skip limit ≠ .ok l := by
    intro l h
    unfold list_tasks at h
    by_cases hl : limit > 500
    · rw [if_pos hl] at h
      cases h
    · rw [if_neg hl] at h
      have he : (Except.ok l : Except ApiError (List Task)) =
          .error (.internal "Query.order_by() being called on a Query which already has LIMIT or OFFSET applied.") :=
        h.symm.trans rfl
      cases he
  refine ⟨?_, hnever, fun l h => absurd h (hnever l)⟩
  intro h
  simp [list_tasks, h]

/-- Witness for C8 at a concrete input. -/
theorem list_tasks_limit_cap_witness :
    list_tasks Store.fresh 0 501 =
      .error (.validation "Input should be less than or equal to 500") :=
  (list_tasks_limit_cap Store.fresh 0 501).1 (by decide)

/-- C9: an identifier that resolves to no row makes get_task fail with the
not-found error, and makes update_task (with any payload that passes
validation) fail with the same not-found error before any mutation (the
returned store is no store at all: the error carries no state); the
not-found error is a different constructor from every validation error. -/
theorem missing_id_not_found (s : Store) (tid : Nat) (p : UpdatePayload)
    (u : TaskUpdate) (hfind : s.findTask tid = none)
    (hp : TaskUpdate.parse p = .ok u) :
    get_task s tid = .error .notFound ∧
    update_task s tid p = .error .notFound ∧
    (∀ m, (ApiError.notFound : ApiError) ≠ ApiError.validation m) := by
  refine ⟨?_, ?_, ?_⟩
  · simp [get_task, hfind]
  · simp [update_task, hp, hfind]
  · intro m h
    cases h

/-- Witness for C9 at a concrete input (fresh store, empty update body). -/
theorem missing_id_not_found_witness :
    get_task Store.fresh 0 = .error .notFound ∧
    update_task Store.fresh 0 {} = .error .notFound :=
  ⟨(missing_id_not_found Store.fresh 0 {} {} rfl rfl).1,
   (missing_id_not_found Store.fresh 0 {} {} rfl rfl).2.1⟩

/-- C2 (amended): on an existing task, an update whose state field is any
of the six enum values succeeds and stores that value; an update whose
state field is any NON-EMPTY string outside the enumeration fails with a
validation error.  The empty string, also a non-member, is not rejected:
the falsy-guard of validate_state skips it (see the counterexample). -/
theorem update_state_enum_members (s : Store) (tid : Nat) (t : Task) (v : String)
    (hfind : s.findTask tid = some t) :
    (v ∈ TaskState.values →
      update_task s tid { state := some (some v) } =
        .ok
          ({ tasks := s.tasks.map
               (fun x => if x.id == tid then { t with state := some v, updated_at := s.now } else x)
             nextId := s.nextId
             now := s.now + 1 },
           { t with state := some v, updated_at := s.now })) ∧
    (v ≠ "" → v ∉ TaskState.values →
      update_task s tid { state := some (some v) } =
        .error (.validation ("Invalid state: " ++ v))) := by
  constructor
  · intro hv
    have hparse : TaskUpdate.parse { state := some (some v) } =
        .ok { state := some (some v) } := by
      unfold TaskUpdate.parse
      simp only [parseStateField, validate_state_member v hv, parseLoadField]
    exact update_task_ok s tid { state := some (some v) } { state := some (some v) } t
      hparse hfind rfl
  · intro h1 h2
    have hparse : TaskUpdate.parse { state := some (some v) } =
        .error (.validation ("Invalid state: " ++ v)) := by
      unfold TaskUpdate.parse
      simp only [parseStateField, validate_state_nonmember v h1 h2]
    unfold update_task
    rw [hparse]

/-- Witness for C2 at a concrete input: updating T1 to state "done". -/
theorem update_state_enum_members_witness :
    update_task store1 0 { state := some (some "done") } = .ok (store1done, task1done) :=
  ((update_state_enum_members store1 0 task1 "done" rfl).1 (by decide)).trans (by rfl)

/-- C2 counterexample: the empty string is not an enum member, yet updating
a task's state to it does not fail with a validation error: the request
succeeds and the non-member value is stored. -/
theorem update_state_empty_string_accepted :
    "" ∉ TaskState.values ∧
    update_task store1 0 { state := some (some "") } = .ok (store1empty, task1empty) :=
  ⟨by decide, by rfl⟩

/-- C3 (amended): the title of a structured-create body is required: a body
missing it fails with a validation error and creates nothing (the handler
returns no store).  Non-emptiness however is not enforced: see the
counterexample. -/
theorem create_title_required (s : Store) (p : CreatePayload)
    (h : p.title = none) :
    create_task s p = .error (.validation "Field required") := by
  unfold create_task TaskCreate.parse
  rw [h]

/-- Witness for C3 at a concrete input: the empty body. -/
theorem create_title_required_witness :
    create_task Store.fresh {} = .error (.validation "Field required") :=
  create_title_required Store.fresh {} rfl

/-- C3 counterexample: a create body whose title is present but EMPTY
passes validation and persists a row carrying the empty title. -/
theorem create_empty_title_accepted :
    create_task Store.fresh { title := some (some "") } =
      .ok ({ tasks := [emptyTitleTask], nextId := 1, now := 1 }, emptyTitleTask) ∧
    emptyTitleTask.title = some "" :=
  ⟨rfl, rfl⟩

/-- C4: a cognitive_load outside [1,10] in a create or update body fails
the whole request with a validation error whatever the other supplied
fields are; the handlers return an error and no store, so nothing is
created and nothing is modified (all-or-nothing). -/
theorem cognitive_load_range_enforced (s : Store) (c : Int)
    (hc : c < 1 ∨ c > 10) (p : CreatePayload) (q : UpdatePayload) (tid : Nat)
    (hp : p.cognitive_load = some (some c)) (hq : q.cognitive_load = some (some c)) :
    isValidationFailure (create_task s p) = true ∧
    isValidationFailure (update_task s tid q) = true := by
  have hval : validate_cognitive_load (some c) =
      .error "Cognitive load must be between 1 and 10" := by
    simp only [validate_cognitive_load]
    rw [if_pos hc]
  constructor
  · unfold create_task TaskCreate.parse
    rw [hp]
    cases p.title with
    | none => rfl
    | some w =>
      cases w with
      | none => rfl
      | some x => simp only [hval]; rfl
  · unfold update_task TaskUpdate.parse
    cases hs : parseStateField q.state with
    | error e =>
      obtain ⟨m, hm⟩ := parseStateField_error q.state e hs
      rw [hm]
      rfl
    | ok st =>
      simp only [parseLoadField, hq, hval]
      rfl

/-- Witness for C4 at a concrete input: cognitive_load 0. -/
theorem cognitive_load_range_enforced_witness :
    isValidationFailure (create_task Store.fresh badCreateBody) = true ∧
    isValidationFailure (update_task Store.fresh 0 badUpdateBody) = true :=
  cognitive_load_range_enforced Store.fresh 0 (by decide) badCreateBody badUpdateBody 0
    rfl rfl

/-- C6: partial update is a merge-patch: when an update on an existing row
succeeds, exactly the fields present in the payload take the supplied
value (null included) and every absent field keeps its stored value; the
row's id and created_at are never modified (the update schema does not
even carry them). -/
theorem update_merge_patch (s s' : Store) (tid : Nat) (p : UpdatePayload)
    (t t' : Task) (hfind : s.findTask tid = some t)
    (h : update_task s tid p = .ok (s', t')) :
    t'.id = t.id ∧ t'.created_at = t.created_at ∧
    (p.title = none → t'.title = t.title) ∧
    (∀ v, p.title = some v → t'.title = v) ∧
    (p.description = none → t'.description = t.description) ∧
    (∀ v, p.description = some v → t'.description = v) ∧
    (p.state = none → t'.state = t.state) ∧
    (∀ v, p.state = some v → t'.state = v) ∧
    (p.cognitive_load = none → t'.cognitive_load = t.cognitive_load) ∧
    (∀ v, p.cognitive_load = some v → t'.cognitive_load = v) ∧
    (p.estimated_minutes = none → t'.estimated_minutes = t.estimated_minutes) ∧
    (∀ v, p.estimated_minutes = some v → t'.estimated_minutes = v) := by
  unfold update_task at h
  cases hp : TaskUpdate.parse p with
  | error e => rw [hp] at h; cases h
  | ok u =>
    obtain ⟨h1, h2, h3, h4, h5⟩ := parse_ok_fields p u hp
    rw [hp, hfind] at h
    simp only [Except.ok.injEq, Prod.mk.injEq] at h
    have ht : t' = if u.isSet then { applyUpdate t u with updated_at := s.now }
        else applyUpdate t u := h.2.symm
    have hfields : t'.id = t.id ∧ t'.created_at = t.created_at ∧
        t'.title = u.title.getD t.title ∧
        t'.description = u.description.getD t.description ∧
        t'.state = u.state.getD t.state ∧
        t'.cognitive_load = u.cognitive_load.getD t.cognitive_load ∧
        t'.estimated_minutes = u.estimated_minutes.getD t.estimated_minutes := by
      rw [ht]
      cases u.isSet with
      | false => exact ⟨rfl, rfl, rfl, rfl, rfl, rfl, rfl⟩
      | true => exact ⟨rfl, rfl, rfl, rfl, rfl, rfl, rfl⟩
    obtain ⟨f1, f2, f3, f4, f5, f6, f7⟩ := hfields
    rw [h1] at f3
    rw [h2] at f4
    rw [h3] at f5
    rw [h4] at f6
    rw [h5] at f7
    refine ⟨f1, f2, ?_, ?_, ?_, ?_, ?_, ?_, ?_, ?_, ?_, ?_⟩
    · intro hn; rw [hn] at f3; exact f3
    · intro v hv; rw [hv] at f3; exact f3
    · intro hn; rw [hn] at f4; exact f4
    · intro v hv; rw [hv] at f4; exact f4
    · intro hn; rw [hn] at f5; exact f5
    · intro v hv; rw [hv] at f5; exact f5
    · intro hn; rw [hn] at f6; exact f6
    · intro v hv; rw [hv] at f6; exact f6
    · intro hn; rw [hn] at f7; exact f7
    · intro v hv; rw [hv] at f7; exact f7

/-- Witness for C6 at a concrete input: a task with title "A" and
description "B" updated with only a new title "C" keeps its description,
id and created_at. -/
theorem update_merge_patch_witness :
    taskC.id = taskAB.id ∧ taskC.created_at = taskAB.created_at ∧
    taskC.title = some "C" ∧ taskC.description = taskAB.description := by
  have h := update_merge_patch storeAB storeC 0 titleCBody taskAB taskC rfl rfl
  exact ⟨h.1, h.2.1, h.2.2.2.1 (some "C") rfl, h.2.2.2.2.1 rfl⟩

/-- C10: the merge-patch distinguishes absent from explicitly null.  On an
existing row, a body binding description to null passes validation,
succeeds, and clears the stored description while keeping every other data
field; and a body binding title to null likewise passes request validation,
succeeds, and stores the null title, even though title is required by the
create schema.  (NOT NULL enforcement lives in the external relational
store, outside this model.) -/
theorem update_null_fields_applied (s : Store) (tid : Nat) (t : Task)
    (s1 s2 : Store) (t1 t2 : Task) (hfind : s.findTask tid = some t)
    (h1 : update_task s tid { description := some none } = .ok (s1, t1))
    (h2 : update_task s tid { title := some none } = .ok (s2, t2)) :
    (update_task s tid { description := some none }).isOk = true ∧
    (update_task s tid { title := some none }).isOk = true ∧
    t1.description = none ∧ t1.title = t.title ∧ t1.state = t.state ∧
    t1.cognitive_load = t.cognitive_load ∧
    t1.estimated_minutes = t.estimated_minutes ∧
    t2.title = none ∧ t2.description = t.description := by
  have hd := update_task_ok s tid { description := some none }
    { description := some none } t rfl hfind rfl
  have htl := update_task_ok s tid { title := some none }
    { title := some none } t rfl hfind rfl
  have e1 := h1.symm.trans hd
  have e2 := h2.symm.trans htl
  simp only [Except.ok.injEq, Prod.mk.injEq] at e1 e2
  refine ⟨by rw [hd]; rfl, by rw [htl]; rfl, ?_, ?_, ?_, ?_, ?_, ?_, ?_⟩
  · rw [e1.2]; rfl
  · rw [e1.2]; rfl
  · rw [e1.2]; rfl
  · rw [e1.2]; rfl
  · rw [e1.2]; rfl
  · rw [e2.2]; rfl
  · rw [e2.2]; rfl

/-- Witness for C10 at a concrete input: taskAB (description "B"). -/
theorem update_null_fields_applied_witness :
    ({ taskAB with description := none, updated_at := 1 } : Task).description = none ∧
    ({ taskAB with title := none, updated_at := 1 } : Task).title = none := by
  have h := update_null_fields_applied storeAB 0 taskAB
    { tasks := [{ taskAB with description := none, updated_at := 1 }], nextId := 1, now := 2 }
    { tasks := [{ taskAB with title := none, updated_at := 1 }], nextId := 1, now := 2 }
    { taskAB with description := none, updated_at := 1 }
    { taskAB with title := none, updated_at := 1 }
    rfl rfl rfl
  exact ⟨h.2.2.1, h.2.2.2.2.2.2.2.1⟩

/-- C1 (code bug): the handler chains offset(skip).limit(limit) BEFORE
order_by on the legacy Query, whose order_by is guarded against queries
that already carry LIMIT or OFFSET clauses, so every boundary-accepted
list call raises InvalidRequestError and surfaces an internal server
error: at the failing input (a store holding T1, T2, T3 created in that
order, skip 0, the default limit 100) the call returns the error and in
particular never the ordered page [T3, T2, T1] that the claim (and the
handler's own docstring) promises. -/
theorem list_tasks_raises_invalid_request :
    list_tasks store3 0 100 =
      .error (.internal "Query.order_by() being called on a Query which already has LIMIT or OFFSET applied.") ∧
    ∀ l, list_tasks store3 0 100 ≠ .ok l := by
  refine ⟨rfl, fun l h => ?_⟩
  have he : (Except.ok l : Except ApiError (List Task)) =
      .error (.internal "Query.order_by() being called on a Query which already has LIMIT or OFFSET applied.") :=
    h.symm.trans rfl
  cases he

end Polaris
